import Mathlib

/-!
Verification of the CLAP (CLever Audio Plugin) C interface headers
(`include/clap/clap.h`, `include/clap/ext/presets.h`) against their
natural-language specification.

The repository is a header-only protocol definition: apart from the
version-packing macros, every operation is a function-pointer slot whose
behaviour is fixed by the header's documentation and the specification,
not by executable code in the repository.  Definitions below therefore
come in two kinds: direct translations of executable code (the version
macros, the enum values), and models of the documented contracts, each
marked `Modelled from the spec:` in its doc comment.

C scalar types are embedded as follows: unsigned integers (`uint32_t`)
as `Nat`, signed integers (`int8_t`, `int32_t`, `int64_t`, `int`) as
`Int` or `Nat` where the protocol only ever uses non-negative values,
and IEEE floating point (`float`, `double`) as `ℚ` — no claim depends
on floating-point rounding, only on exact values such as zero.
-/

/-! ### Version macros (clap.h lines 36–41) -/

/-- `CLAP_VERSION_MAKE(Major, Minor, Revision)`:
`((((Major)&0xff) << 16) | (((Minor)&0xff) << 8) | ((Revision)&0xff))`. -/
def CLAP_VERSION_MAKE (Major Minor Revision : Nat) : Nat :=
  (((Major &&& 0xff) <<< 16) ||| ((Minor &&& 0xff) <<< 8)) ||| (Revision &&& 0xff)

/-- `CLAP_VERSION` is `CLAP_VERSION_MAKE(0, 2, 0)`. -/
def CLAP_VERSION : Nat := CLAP_VERSION_MAKE 0 2 0

/-- `CLAP_VERSION_MAJ(Version)`: `(((Version) >> 16) & 0xff)`. -/
def CLAP_VERSION_MAJ (Version : Nat) : Nat := (Version >>> 16) &&& 0xff

/-- `CLAP_VERSION_MIN(Version)`: `(((Version) >> 8) & 0xff)`. -/
def CLAP_VERSION_MIN (Version : Nat) : Nat := (Version >>> 8) &&& 0xff

/-- `CLAP_VERSION_REV(Version)`: `((Version)&0xff)`. -/
def CLAP_VERSION_REV (Version : Nat) : Nat := Version &&& 0xff

/-! ### Events (clap.h lines 98–193) -/

/-- `union clap_param_value { bool b; double d; int64_t i; }`. -/
inductive clap_param_value where
  | b (v : Bool)
  | d (v : ℚ)
  | i (v : Int)
deriving DecidableEq

/-- `enum clap_event_type` (clap.h lines 108–124). -/
inductive clap_event_type where
  | NOTE_ON
  | NOTE_OFF
  | CHOKE
  | PARAM_SET
  | CONTROL
  | PROGRAM
  | MIDI
  | PLAY
  | PAUSE
  | STOP
deriving DecidableEq

/-- The numeric value each `clap_event_type` enumerator carries in the header. -/
def clap_event_type.val : clap_event_type → Nat
  | .NOTE_ON => 0
  | .NOTE_OFF => 1
  | .CHOKE => 2
  | .PARAM_SET => 3
  | .CONTROL => 5
  | .PROGRAM => 16
  | .MIDI => 6
  | .PLAY => 12
  | .PAUSE => 13
  | .STOP => 14

/-- `struct clap_event_param`. -/
structure clap_event_param where
  key : Int
  channel : Int
  index : Nat
  normalized_value : clap_param_value
  normalized_ramp : ℚ
deriving DecidableEq

/-- `struct clap_event_note`. -/
structure clap_event_note where
  key : Int
  channel : Int
  velocity : ℚ
deriving DecidableEq

/-- `struct clap_event_control`. -/
structure clap_event_control where
  key : Int
  channel : Int
  control : Int
  value : ℚ
deriving DecidableEq

/-- `struct clap_event_midi`: a byte buffer and its size. -/
structure clap_event_midi where
  buffer : List Nat
  size : Nat
deriving DecidableEq

/-- `struct clap_event_program`. -/
structure clap_event_program where
  bank_msb : Int
  bank_lsb : Int
  program : Int
deriving DecidableEq

/-- The anonymous union inside `struct clap_event`: exactly one payload
variant is valid per event type; event types without an attribute carry
no payload. -/
inductive clap_event_payload where
  | note (v : clap_event_note)
  | control (v : clap_event_control)
  | param (v : clap_event_param)
  | midi (v : clap_event_midi)
  | program (v : clap_event_program)
  | empty
deriving DecidableEq

/-- `struct clap_event` (clap.h lines 174–185): the event type, the
`uint32_t time` offset from the first sample of the process block, and
the payload union. -/
structure clap_event where
  type : clap_event_type
  time : Nat
  payload : clap_event_payload
deriving DecidableEq

/-! ### Event streams (clap.h lines 187–193, spec §3 and §4.1) -/

/-- Modelled from the spec: an event stream is an ordered sequence of
events, exposed through `struct clap_event_list` whose `size`, `get`
and `push_back` slots are function pointers with no implementation in
the repository.  `size()` returns the number of events. -/
def clap_event_list.size (events : List clap_event) : Nat :=
  events.length

/-- Modelled from the spec: `get(index)` on an event stream fails with
an out-of-range result when `index ≥ size()` (modelled as `none`) and
otherwise returns a read-only view of the event at `index`. -/
def clap_event_list.get (events : List clap_event) (index : Nat) :
    Option clap_event :=
  events[index]?

/-- Modelled from the spec: the validity invariant of an input event
stream passed to `process`: every event's `time` lies strictly below
the block's `frames_count`, and consecutive events appear in
non-decreasing `time` order. -/
def validInputStream (frames_count : Nat) (events : List clap_event) : Prop :=
  (∀ e ∈ events, e.time < frames_count) ∧
    List.Chain' (fun a b => a.time ≤ b.time) events

/-! ### Process contract (clap.h lines 199–250, spec §4.2) -/

/-- `enum clap_process_status` (clap.h lines 199–209). -/
inductive clap_process_status where
  | ERROR
  | CONTINUE
  | SLEEP
deriving DecidableEq

/-- The numeric value each `clap_process_status` enumerator carries. -/
def clap_process_status.val : clap_process_status → Nat
  | .ERROR => 0
  | .CONTINUE => 1
  | .SLEEP => 2

/-- `struct clap_audio_buffer` (clap.h lines 211–216): per-channel data
pointers and a channel count.  A channel's pointer may be null, encoded
as `none`. -/
structure clap_audio_buffer where
  data : List (Option (List ℚ))
  channel_count : Int

/-- The documented reading of one channel of a `clap_audio_buffer`
(clap.h lines 212–213: "if data is null, then assume that the input has
the value 0 for each samples"): a null channel pointer denotes a
present channel whose `frames_count` samples are all zero. -/
def channel_samples (frames_count : Nat) (data : Option (List ℚ)) : List ℚ :=
  match data with
  | none => List.replicate frames_count 0
  | some samples => samples

/-- Modelled from the spec: after `process` returns, the host consumes
the block's output buffers only when the status is not `ERROR`; on
`ERROR` the output is invalid and is discarded (never read).  The
`process` implementations themselves live in plugins outside this
repository. -/
def host_consume_output {α : Type} (status : clap_process_status)
    (output : α) : Option α :=
  match status with
  | .ERROR => none
  | .CONTINUE => some output
  | .SLEEP => some output

/-! ### Plugin lifecycle (clap.h lines 308–352, spec §4.3) -/

/-- The lifecycle states of a plugin instance: Created (after
instantiation or deactivation), Active (after a successful `activate`),
Destroyed (terminal, after `destroy`). -/
inductive PluginState where
  | Created
  | Active
  | Destroyed
deriving DecidableEq

/-- The lifecycle operations of `struct clap_plugin`.  `activate`
carries whether the requested sample rate / configuration is supported
by the plugin, which determines its boolean result. -/
inductive LifecycleOp where
  | activate (supported : Bool)
  | deactivate
  | processBlock
  | destroy
deriving DecidableEq

/-- Modelled from the spec and the header's documentation: the valid
lifecycle transitions.  `activate` is valid only in Created and moves
to Active exactly when the configuration is supported; `deactivate`
returns an Active plugin to Created; `process` is legal only in
Active; `destroy` frees the plugin — per clap.h lines 325–327 ("It is
not required to deactivate the plugin prior to this call") it is valid
from Created and from Active alike, and nothing is valid on a
Destroyed plugin. -/
def validStep : PluginState → LifecycleOp → Option PluginState
  | .Created, .activate true => some .Active
  | .Created, .activate false => some .Created
  | .Active, .deactivate => some .Created
  | .Active, .processBlock => some .Active
  | .Created, .destroy => some .Destroyed
  | .Active, .destroy => some .Destroyed
  | _, _ => none

/-- Runs a sequence of lifecycle operations from a state, returning the
final state when every step is valid and `none` otherwise. -/
def runLifecycle : PluginState → List LifecycleOp → Option PluginState
  | s, [] => some s
  | s, op :: ops =>
    match validStep s op with
    | none => none
    | some s2 => runLifecycle s2 ops

/-- Modelled from the spec: `activate(sample_rate) -> bool` on a plugin
whose supported configurations are given by `supports`.  Only specified
from Created: it returns `false` and leaves the plugin in Created when
the sample rate is unsupported, and returns `true` moving the plugin to
Active when it is supported. -/
def activate (supports : Int → Bool) :
    PluginState → Int → Option (Bool × PluginState)
  | .Created, sample_rate =>
    if supports sample_rate then some (true, .Active)
    else some (false, .Created)
  | _, _ => none

/-! ### Attribute query (clap.h lines 269–272 and 329–337, spec §6) -/

/-- `CLAP_ATTR_VERSION` (clap.h line 83). -/
def CLAP_ATTR_VERSION : String := "clap/version"

/-- Modelled from the spec: `get_attribute(attr, buffer, size)` over a
plugin/host whose attribute table is `attrs`.  It returns the size of
the original string, or 0 if the attribute has no value; it copies at
most `size` bytes into the buffer, always placing a NUL byte at the
end of the written string.  The result is the returned length together
with the bytes written into the buffer. -/
def get_attribute (attrs : String → Option String) (attr : String)
    (size : Nat) : Nat × List Char :=
  match attrs attr with
  | none => (0, [])
  | some v =>
    if size = 0 then (v.length, [])
    else (v.length, v.toList.take (size - 1) ++ ['\x00'])

/-! ### Extension query (clap.h lines 281–283 and 349–351, spec §4.4) -/

/-- Modelled from the spec: `extension(id)` on plugin and host is a
pure, thread-safe lookup in a fixed registry of capability tables keyed
by namespaced id strings; an unsupported id (any id absent from the
registry) yields `none`, which is capability discovery, not an error.
`α` stands for the capability-table pointer type. -/
def extensionQuery {α : Type} (registry : List (String × α))
    (ext_id : String) : Option α :=
  (registry.find? (fun entry => entry.1 = ext_id)).map (fun entry => entry.2)

/-- Modelled from the spec: the result of the `call_index`-th call to
`extension(id)`: every call, whenever it happens, runs the same pure
registry lookup. -/
def extensionQueryAt {α : Type} (registry : List (String × α))
    (ext_id : String) (_call_index : Nat) : Option α :=
  extensionQuery registry ext_id

/-! ### Preset-library extension (presets.h, spec §4.5) -/

/-- `struct clap_preset_info` (presets.h lines 8–18). -/
structure clap_preset_info where
  plugin_id : String
  id : String
  name : String
  desc : String
  author : String
  categories : String
  tags : String
  score : Int
deriving DecidableEq

/-- Modelled from the spec: `get_directory(index)` enumerates a fixed,
finite list of root directories; it returns the directory's path for a
valid index and `false` (modelled as `none`) once `index` is beyond the
list — the iteration-termination signal. -/
def get_directory (dirs : List String) (directory_index : Nat) :
    Option String :=
  dirs[directory_index]?

/-- Modelled from the spec: `get_bank_preset(handle, index)` on an open
bank holding a finite list of presets; it returns the preset info for
an in-range index and `false` (modelled as `none`) for an out-of-range
index, which callers must treat as end-of-bank. -/
def get_bank_preset (bank : List clap_preset_info) (index : Nat) :
    Option clap_preset_info :=
  bank[index]?

/-! ### Concrete instances used by the witnesses -/

/-- A sample event with a given time offset and no payload. -/
def demoEvent (t : Nat) : clap_event :=
  ⟨clap_event_type.NOTE_ON, t, clap_event_payload.empty⟩

/-- A sample input event stream: time offsets 0, 3, 3, 100. -/
def demoStream : List clap_event :=
  [demoEvent 0, demoEvent 3, demoEvent 3, demoEvent 100]

/-- A sample attribute table exposing only the version attribute. -/
def demoAttrs : String → Option String := fun attr =>
  if attr = CLAP_ATTR_VERSION then some ("1.3.14") else none

/-- A sample supported-configuration predicate: only 44100 Hz. -/
def demoSupports : Int → Bool := fun sample_rate => sample_rate == 44100

/-- A sample extension registry exposing one capability table. -/
def demoRegistry : List (String × Nat) := [("clap/presets", 1)]

/-- A sample list of preset root directories. -/
def demoDirs : List String := ["/presets/factory", "/presets/user"]

/-- A sample open bank with one preset. -/
def demoBank : List clap_preset_info :=
  [⟨"com.example.plugin", "p0", "Init", "", "", "", "", -1⟩]

/-! ### Helper lemmas -/

instance : IsTrans clap_event (fun a b => a.time ≤ b.time) :=
  ⟨fun _ _ _ hab hbc => Nat.le_trans hab hbc⟩

/-- Arithmetic form of the version-packing macro on in-range inputs. -/
theorem clap_version_make_arith (M m r : Nat)
    (hM : M ≤ 255) (hm : m ≤ 255) (hr : r ≤ 255) :
    CLAP_VERSION_MAKE M m r = 65536 * M + 256 * m + r := by
  have hM2 : M < 2 ^ 8 := by omega
  have hm2 : m < 2 ^ 8 := by omega
  have hr2 : r < 2 ^ 8 := by omega
  unfold CLAP_VERSION_MAKE
  have h255 : (0xff : Nat) = 2 ^ 8 - 1 := by norm_num
  rw [h255, Nat.and_pow_two_sub_one_of_lt_two_pow hM2,
      Nat.and_pow_two_sub_one_of_lt_two_pow hm2,
      Nat.and_pow_two_sub_one_of_lt_two_pow hr2,
      Nat.shiftLeft_eq, Nat.shiftLeft_eq, Nat.mul_comm M, Nat.mul_comm m,
      ← Nat.mul_add_lt_is_or (show 2 ^ 8 * m < 2 ^ 16 by omega) M,
      show 2 ^ 16 * M + 2 ^ 8 * m = 2 ^ 8 * (2 ^ 8 * M + m) by ring,
      ← Nat.mul_add_lt_is_or hr2 (2 ^ 8 * M + m)]
  ring

/-! ### Claim theorems -/

/-- C10: the version-packing macros round-trip: for every Major, Minor,
Revision in [0, 255], `CLAP_VERSION_MAJ (CLAP_VERSION_MAKE M m r) = M`,
`CLAP_VERSION_MIN ... = m`, `CLAP_VERSION_REV ... = r`; and
`CLAP_VERSION` decodes to (0, 2, 0). -/
theorem version_macros_roundtrip (M m r : Nat)
    (hM : M ≤ 255) (hm : m ≤ 255) (hr : r ≤ 255) :
    CLAP_VERSION_MAJ (CLAP_VERSION_MAKE M m r) = M ∧
    CLAP_VERSION_MIN (CLAP_VERSION_MAKE M m r) = m ∧
    CLAP_VERSION_REV (CLAP_VERSION_MAKE M m r) = r ∧
    CLAP_VERSION_MAJ CLAP_VERSION = 0 ∧
    CLAP_VERSION_MIN CLAP_VERSION = 2 ∧
    CLAP_VERSION_REV CLAP_VERSION = 0 := by
  have harith := clap_version_make_arith M m r hM hm hr
  have h255 : (0xff : Nat) = 2 ^ 8 - 1 := by norm_num
  refine ⟨?_, ?_, ?_, by decide, by decide, by decide⟩
  · unfold CLAP_VERSION_MAJ
    rw [harith, Nat.shiftRight_eq_div_pow, h255,
        Nat.and_pow_two_sub_one_eq_mod]
    omega
  · unfold CLAP_VERSION_MIN
    rw [harith, Nat.shiftRight_eq_div_pow, h255,
        Nat.and_pow_two_sub_one_eq_mod]
    omega
  · unfold CLAP_VERSION_REV
    rw [harith, h255, Nat.and_pow_two_sub_one_eq_mod]
    omega

/-- Witness for C10: the round-trip at (7, 200, 13). -/
theorem version_macros_roundtrip_witness :
    CLAP_VERSION_MAJ (CLAP_VERSION_MAKE 7 200 13) = 7 ∧
    CLAP_VERSION_MIN (CLAP_VERSION_MAKE 7 200 13) = 200 ∧
    CLAP_VERSION_REV (CLAP_VERSION_MAKE 7 200 13) = 13 := by
  have h := version_macros_roundtrip 7 200 13 (by decide) (by decide) (by decide)
  exact ⟨h.1, h.2.1, h.2.2.1⟩

/-- C1: `process` returns exactly one of the three statuses ERROR,
CONTINUE, SLEEP (they are pairwise distinct and exhaustive), and the
host consumes a block's output buffers exactly when the status is not
ERROR: on ERROR the output is discarded, never read. -/
theorem process_status_contract :
    (∀ s : clap_process_status,
        s = clap_process_status.ERROR ∨ s = clap_process_status.CONTINUE ∨
          s = clap_process_status.SLEEP) ∧
    (clap_process_status.ERROR ≠ clap_process_status.CONTINUE ∧
      clap_process_status.CONTINUE ≠ clap_process_status.SLEEP ∧
      clap_process_status.ERROR ≠ clap_process_status.SLEEP) ∧
    ∀ (output : List (List ℚ)) (s : clap_process_status),
      host_consume_output s output = none ↔ s = clap_process_status.ERROR := by
  refine ⟨fun s => ?_, ⟨by decide, by decide, by decide⟩, fun output s => ?_⟩
  · cases s
    · exact Or.inl rfl
    · exact Or.inr (Or.inl rfl)
    · exact Or.inr (Or.inr rfl)
  · cases s <;> simp [host_consume_output]

/-- C2: in a valid input event stream, every event's time offset is
strictly below the block's `frames_count` and non-negative, and the
sequence of time values is non-decreasing in stream order. -/
theorem input_stream_event_invariants (frames_count : Nat)
    (events : List clap_event)
    (h : validInputStream frames_count events) :
    (∀ e ∈ events, e.time < frames_count ∧ 0 ≤ e.time) ∧
    ∀ (i j : Fin events.length), i ≤ j →
      (events.get i).time ≤ (events.get j).time := by
  obtain ⟨hbound, hchain⟩ := h
  refine ⟨fun e he => ⟨hbound e he, Nat.zero_le _⟩, fun i j hij => ?_⟩
  have hpw : events.Pairwise (fun a b => a.time ≤ b.time) :=
    List.chain'_iff_pairwise.mp hchain
  rcases Nat.lt_or_ge i.val j.val with hlt | hge
  · exact List.pairwise_iff_get.mp hpw i j hlt
  · have : i = j := Fin.le_antisymm hij hge
    exact this ▸ Nat.le_refl _

/-- Witness for C2: the invariants at a concrete valid stream with
frames_count = 128. -/
theorem input_stream_event_invariants_witness :
    validInputStream 128 demoStream ∧
    (demoEvent 100).time < 128 ∧
    (demoStream.get ⟨1, by decide⟩).time ≤ (demoStream.get ⟨3, by decide⟩).time := by
  have hvalid : validInputStream 128 demoStream := by
    constructor
    · decide
    · simp [demoStream, demoEvent, List.chain'_cons]
  have h := input_stream_event_invariants 128 demoStream hvalid
  exact ⟨hvalid, (h.1 (demoEvent 100) (by decide)).1,
    h.2 ⟨1, by decide⟩ ⟨3, by decide⟩ (by decide)⟩

/-- C3: `get_attribute` returns the full length of the attribute's
value even when the caller's buffer is smaller (writing the truncated
value followed by a NUL byte, never exceeding the buffer size), and
returns 0 when the attribute is undefined. -/
theorem get_attribute_contract (attrs : String → Option String)
    (attr : String) (size : Nat) :
    (attrs attr = none → (get_attribute attrs attr size).1 = 0) ∧
    ∀ v, attrs attr = some v →
      (get_attribute attrs attr size).1 = v.length ∧
      (0 < size →
        (get_attribute attrs attr size).2 =
          v.toList.take (size - 1) ++ ['\x00'] ∧
        (get_attribute attrs attr size).2.length ≤ size) := by
  constructor
  · intro h
    simp [get_attribute, h]
  · intro v hv
    refine ⟨?_, fun hsize => ⟨?_, ?_⟩⟩
    · unfold get_attribute
      rw [hv]
      by_cases h0 : size = 0 <;> simp [h0]
    · unfold get_attribute
      rw [hv]
      simp [Nat.pos_iff_ne_zero.mp hsize]
    · unfold get_attribute
      rw [hv]
      simp only [Nat.pos_iff_ne_zero.mp hsize, if_false,
        List.length_append, List.length_take, List.length_singleton]
      omega

/-- Witness for C3: the spec's scenario — version value "1.3.14"
(length 6) queried with a 4-byte buffer returns 6 and writes the 3
characters "1.3" plus a NUL terminator. -/
theorem get_attribute_contract_witness :
    demoAttrs CLAP_ATTR_VERSION = some ("1.3.14") ∧
    (get_attribute demoAttrs CLAP_ATTR_VERSION 4).1 = 6 ∧
    (get_attribute demoAttrs CLAP_ATTR_VERSION 4).2 =
      ['1', '.', '3', '\x00'] := by
  have h := (get_attribute_contract demoAttrs CLAP_ATTR_VERSION 4).2
    ("1.3.14") (by decide)
  refine ⟨by decide, ?_, ?_⟩
  · rw [h.1]
    decide
  · rw [(h.2 (by decide)).1]
    decide

/-- C4 counterexample: the claim "destroy is never invoked while the
plugin is Active" fails on the code — clap.h's `destroy` documentation
says deactivation is not required first, so the concrete operation
sequence [activate(supported), destroy] is valid even though its
`destroy` runs from the Active state. -/
theorem destroy_while_active_counterexample :
    runLifecycle PluginState.Created
        [LifecycleOp.activate true, LifecycleOp.destroy] =
      some PluginState.Destroyed ∧
    runLifecycle PluginState.Created [LifecycleOp.activate true] =
      some PluginState.Active := by
  constructor
  · rfl
  · rfl

/-- C4 (amended): `destroy` is valid from every live state — from
Created and equally from Active, without a preceding `deactivate` —
and only a plugin that is already Destroyed admits no further
operations. -/
theorem destroy_valid_from_any_live_state :
    ∀ s : PluginState,
      validStep s LifecycleOp.destroy =
        if s = PluginState.Destroyed then none
        else some PluginState.Destroyed := by
  intro s
  cases s <;> rfl

/-- C5: calling `activate` from Created with an unsupported sample rate
returns false and leaves the plugin in Created, after which activating
with a supported rate still succeeds and moves the plugin to Active. -/
theorem activate_failure_recovery (supports : Int → Bool) (r1 r2 : Int)
    (h1 : supports r1 = false) (h2 : supports r2 = true) :
    activate supports PluginState.Created r1 =
      some (false, PluginState.Created) ∧
    activate supports PluginState.Created r2 =
      some (true, PluginState.Active) ∧
    (match activate supports PluginState.Created r1 with
      | some (_, s) => activate supports s r2
      | none => none) = some (true, PluginState.Active) := by
  refine ⟨?_, ?_, ?_⟩ <;> simp [activate, h1, h2]

/-- Witness for C5: a plugin supporting only 44100 Hz rejects 22050 Hz,
stays in Created, and then activates at 44100 Hz. -/
theorem activate_failure_recovery_witness :
    demoSupports 22050 = false ∧ demoSupports 44100 = true ∧
    activate demoSupports PluginState.Created 22050 =
      some (false, PluginState.Created) ∧
    activate demoSupports PluginState.Created 44100 =
      some (true, PluginState.Active) := by
  have h := activate_failure_recovery demoSupports 22050 44100
    (by decide) (by decide)
  exact ⟨by decide, by decide, h.1, h.2.1⟩

/-- C6: `extension(id)` returns absent (`none`) for every id missing
from the capability registry — including any unknown id — and repeated
calls with the same id always return the same result. -/
theorem extension_absent_and_idempotent {α : Type}
    (registry : List (String × α)) (ext_id : String) :
    (ext_id ∉ registry.map Prod.fst →
      extensionQuery registry ext_id = none) ∧
    ∀ i j : Nat,
      extensionQueryAt registry ext_id i =
        extensionQueryAt registry ext_id j := by
  constructor
  · intro h
    unfold extensionQuery
    rw [List.find?_eq_none.mpr]
    · rfl
    · intro entry hmem
      simp only [decide_eq_true_eq]
      intro heq
      exact h (List.mem_map.mpr ⟨entry, hmem, heq⟩)
  · intro i j
    rfl

/-- Witness for C6: the unknown id "unknown-id" is absent from the
demo registry, queries for it return `none`, and two successive calls
agree. -/
theorem extension_absent_and_idempotent_witness :
    ("unknown-id" ∉ demoRegistry.map Prod.fst) ∧
    extensionQuery demoRegistry ("unknown-id") = none ∧
    extensionQueryAt demoRegistry ("unknown-id") 0 =
      extensionQueryAt demoRegistry ("unknown-id") 1 := by
  have h := extension_absent_and_idempotent demoRegistry ("unknown-id")
  exact ⟨by decide, h.1 (by decide), h.2 0 1⟩

/-- C7: preset enumeration terminates via false returns: every index at
or beyond the directory list's length makes `get_directory` return
false (so a finite N — the list length — bounds the enumeration), and
on an open bank every out-of-range index makes `get_bank_preset`
return false, the end-of-bank signal. -/
theorem preset_enumeration_terminates (dirs : List String)
    (bank : List clap_preset_info) :
    (∀ i, dirs.length ≤ i → get_directory dirs i = none) ∧
    (∃ N, ∀ i, N ≤ i → get_directory dirs i = none) ∧
    (∀ i, bank.length ≤ i → get_bank_preset bank i = none) := by
  refine ⟨fun i hi => ?_, ⟨dirs.length, fun i hi => ?_⟩, fun i hi => ?_⟩
  · exact List.getElem?_eq_none hi
  · exact List.getElem?_eq_none hi
  · exact List.getElem?_eq_none hi

/-- Witness for C7: past-the-end queries on the demo directory list
(length 2) and the demo bank (length 1) return false. -/
theorem preset_enumeration_terminates_witness :
    demoDirs.length ≤ 2 ∧ get_directory demoDirs 2 = none ∧
    demoBank.length ≤ 5 ∧ get_bank_preset demoBank 5 = none := by
  have h := preset_enumeration_terminates demoDirs demoBank
  exact ⟨by decide, h.1 2 (by decide), by decide, h.2.2 5 (by decide)⟩

/-- C8: `get(index)` on an event stream fails (returns the out-of-range
result `none`) exactly when `index ≥ size()`, and for an in-range index
it returns the event stored at that index. -/
theorem event_list_get_contract (events : List clap_event) (index : Nat) :
    (clap_event_list.size events ≤ index →
      clap_event_list.get events index = none) ∧
    ∀ h : index < events.length,
      clap_event_list.get events index =
        some (events.get ⟨index, h⟩) := by
  constructor
  · intro h
    exact List.getElem?_eq_none h
  · intro h
    simp [clap_event_list.get, List.getElem?_eq_getElem h]

/-- Witness for C8: on the 4-event demo stream, index 9 is rejected and
index 1 returns the stored event. -/
theorem event_list_get_contract_witness :
    (clap_event_list.size demoStream ≤ 9 ∧
      clap_event_list.get demoStream 9 = none) ∧
    (1 < demoStream.length ∧
      clap_event_list.get demoStream 1 =
        some (demoStream.get ⟨1, by decide⟩)) := by
  refine ⟨⟨by decide, ?_⟩, ⟨by decide, ?_⟩⟩
  · exact (event_list_get_contract demoStream 9).1 (by decide)
  · exact (event_list_get_contract demoStream 1).2 (by decide)

/-- C9: a null per-channel data pointer denotes silence: the channel is
read as present, with exactly `frames_count` samples, every one of
them zero — not as an absent channel. -/
theorem null_channel_is_silence (frames_count : Nat) :
    channel_samples frames_count none =
      List.replicate frames_count 0 ∧
    (channel_samples frames_count none).length = frames_count ∧
    ∀ s ∈ channel_samples frames_count none, s = 0 := by
  refine ⟨rfl, ?_, ?_⟩
  · simp [channel_samples]
  · intro s hs
    simp only [channel_samples, List.mem_replicate] at hs
    exact hs.2

/-- Witness for C9: at frames_count = 4, the null channel reads as four
samples, the sample 0 is among them, and it is zero. -/
theorem null_channel_is_silence_witness :
    (0 : ℚ) ∈ channel_samples 4 none ∧
    (0 : ℚ) = 0 ∧
    (channel_samples 4 none).length = 4 := by
  have h := null_channel_is_silence 4
  have hmem : (0 : ℚ) ∈ channel_samples 4 none := by
    simp [channel_samples, List.mem_replicate]
  exact ⟨hmem, h.2.2 0 hmem, h.2.1⟩
